import Mathlib

/-!
Verification of the bugx CLI tunnel supervisor and connection registry.

The Go sources are shallowly embedded: the registry file is a
`List ConnectionInfo`, OS process liveness is an environment function
`alive : Int → Bool`, and the fallible OS calls (spawn, signal, registry
save) are environment booleans.  Each Go function from
`cmd/connection.go`, `cmd/connect.go`, `cmd/disconnect.go`,
`cmd/daemon.go` and `cmd/portforward_daemon.go` that the claims touch is
translated into a pure Lean function of the registry and the environment.
-/

namespace Bugx

/-- `ConnectionInfo` from cmd/connection.go: one registry record.
Field names follow the Go struct (`Namespace` is rendered
`namespaceName` because `namespace` is a Lean keyword). -/
structure ConnectionInfo where
  pid : Int
  serviceName : String
  namespaceName : String
  localPort : String
  remotePort : Int
  podName : String
  kubeconfig : String
  status : String
deriving Repr, DecidableEq

/-- A record matches a (service name, namespace) key.  This is the
test used (negated) by `removeConnection` and (positively) by
`findConnection` and `updateConnectionStatus` in cmd/connection.go. -/
def keyMatches (c : ConnectionInfo) (serviceName namespaceName : String) : Bool :=
  c.serviceName == serviceName && c.namespaceName == namespaceName

/-- `findConnection` from cmd/connection.go: first record matching
(serviceName, namespace); the Go version returns an error when no
record matches, modelled by `none`. -/
def findConnection (reg : List ConnectionInfo) (serviceName namespaceName : String) :
    Option ConnectionInfo :=
  reg.find? (fun c => keyMatches c serviceName namespaceName)

/-- `addConnection` from cmd/connection.go: append the new record to the
loaded list and save. -/
def addConnection (reg : List ConnectionInfo) (conn : ConnectionInfo) :
    List ConnectionInfo :=
  reg ++ [conn]

/-- `removeConnection` from cmd/connection.go: keep exactly the records
whose ServiceName or Namespace differs, i.e. drop every record matching
the key. -/
def removeConnection (reg : List ConnectionInfo) (serviceName namespaceName : String) :
    List ConnectionInfo :=
  reg.filter (fun c => !(keyMatches c serviceName namespaceName))

/-- `updateConnectionStatus` from cmd/connection.go: set the status of
the first matching record and save; `none` models the
"connection not found" error (the file is then left unchanged). -/
def updateConnectionStatus (reg : List ConnectionInfo)
    (serviceName namespaceName status : String) : Option (List ConnectionInfo) :=
  match reg with
  | [] => none
  | c :: rest =>
    if keyMatches c serviceName namespaceName then
      some ({ c with status := status } :: rest)
    else
      (updateConnectionStatus rest serviceName namespaceName status).map (c :: ·)

/-- `isProcessRunning` from cmd/connect.go: probe the process table with
signal 0.  On Unix `os.FindProcess` never fails, so the probe reduces to
the environment's process table `alive`. -/
def isProcessRunning (alive : Int → Bool) (pid : Int) : Bool :=
  alive pid

end Bugx

namespace Bugx

/-- The failure cases of a background connect, from
`NewConnectCmd`/`createBackgroundPortForward` in cmd/connect.go. -/
inductive ConnectError where
  | alreadyConnected
  | spawnFailed
  | daemonStartFailed
  | registryWriteFailed
deriving Repr, DecidableEq

/-- Environment of one background connect: whether the OS spawn call
succeeds, the PID it hands out, the process table at the liveness
re-check, and whether the registry save succeeds. -/
structure ConnectEnv where
  spawnOk : Bool
  childPid : Int
  alive : Int → Bool
  saveOk : Bool

/-- Outcome of a connect invocation: the registry after the call, the
error (if any), whether a child process was spawned, and whether the
supervisor attempted to kill the child. -/
structure ConnectOutcome where
  registry : List ConnectionInfo
  result : Option ConnectError
  spawned : Bool
  killedChild : Bool
deriving Repr, DecidableEq

/-- `createBackgroundPortForward` from cmd/connect.go: spawn the daemon
process detached, sleep, re-probe liveness, and only then write the
`active` registry record; on a failed write, kill the child and return
the error. -/
def createBackgroundPortForward (env : ConnectEnv) (reg : List ConnectionInfo)
    (namespaceName serviceName podName localPort : String) (remotePort : Int)
    (kubeconfigPath : String) : ConnectOutcome :=
  if !env.spawnOk then
    { registry := reg, result := some .spawnFailed, spawned := false, killedChild := false }
  else if !isProcessRunning env.alive env.childPid then
    { registry := reg, result := some .daemonStartFailed, spawned := true,
      killedChild := false }
  else
    let conn : ConnectionInfo :=
      { pid := env.childPid, serviceName := serviceName,
        namespaceName := namespaceName, localPort := localPort,
        remotePort := remotePort, podName := podName,
        kubeconfig := kubeconfigPath, status := "active" }
    if env.saveOk then
      { registry := addConnection reg conn, result := none, spawned := true,
        killedChild := false }
    else
      { registry := reg, result := some .registryWriteFailed, spawned := true,
        killedChild := true }

/-- The duplicate-connection guard plus background spawn from
`NewConnectCmd` in cmd/connect.go (lines 125-133): fail with
`AlreadyConnected` when the first record matching (service, namespace)
has status "active", otherwise spawn in the background. -/
def connectStep (env : ConnectEnv) (reg : List ConnectionInfo)
    (serviceName namespaceName podName localPort : String) (remotePort : Int)
    (kubeconfigPath : String) : ConnectOutcome :=
  match findConnection reg serviceName namespaceName with
  | some existing =>
    if existing.status == "active" then
      { registry := reg, result := some .alreadyConnected, spawned := false,
        killedChild := false }
    else
      createBackgroundPortForward env reg namespaceName serviceName podName
        localPort remotePort kubeconfigPath
  | none =>
    createBackgroundPortForward env reg namespaceName serviceName podName
      localPort remotePort kubeconfigPath

/-- Environment of one disconnect: the process table, and whether the
SIGTERM and SIGKILL signal calls themselves return an error.  On Unix
`os.FindProcess` never fails, so that branch of the Go code is dead. -/
structure DisconnectEnv where
  alive : Int → Bool
  termCallFails : Bool
  killCallFails : Bool

/-- Results of `NewDisconnectCmd`'s RunE in cmd/disconnect.go.
`notFound` and `killFailed` are returned as Go errors; `alreadyStopped`
and `disconnected` are successes (nil error). -/
inductive DisconnectResult where
  | notFound
  | alreadyStopped
  | disconnected
  | killFailed
deriving Repr, DecidableEq

/-- Which `DisconnectResult`s RunE reports as a Go error. -/
def DisconnectResult.isError : DisconnectResult → Bool
  | .notFound => true
  | .killFailed => true
  | .alreadyStopped => false
  | .disconnected => false

/-- Outcome of a disconnect: the registry afterwards, the result, and
which signals were sent to the recorded PID. -/
structure DisconnectOutcome where
  registry : List ConnectionInfo
  result : DisconnectResult
  sentTerm : Bool
  sentKill : Bool
deriving Repr, DecidableEq

/-- `NewDisconnectCmd`'s RunE from cmd/disconnect.go: look the key up;
if the recorded PID is dead, remove the entry and succeed with an
"already stopped" note; otherwise send SIGTERM, escalating to SIGKILL
only when the SIGTERM call itself errored, then remove the entry. -/
def disconnectStep (env : DisconnectEnv) (reg : List ConnectionInfo)
    (serviceName namespaceName : String) : DisconnectOutcome :=
  match findConnection reg serviceName namespaceName with
  | none =>
    { registry := reg, result := .notFound, sentTerm := false, sentKill := false }
  | some conn =>
    if !isProcessRunning env.alive conn.pid then
      { registry := removeConnection reg serviceName namespaceName,
        result := .alreadyStopped, sentTerm := false, sentKill := false }
    else if env.termCallFails then
      if env.killCallFails then
        { registry := reg, result := .killFailed, sentTerm := true, sentKill := true }
      else
        { registry := removeConnection reg serviceName namespaceName,
          result := .disconnected, sentTerm := true, sentKill := true }
    else
      { registry := removeConnection reg serviceName namespaceName,
        result := .disconnected, sentTerm := true, sentKill := false }

end Bugx

namespace Bugx

/-- The two events the daemon's Running-state select in
`runPortForwardDaemon` (cmd/portforward_daemon.go) can wake on: an
error from the tunnel I/O goroutine, or an interrupt/termination
signal. -/
inductive DaemonEvent where
  | ioError
  | termSignal
deriving Repr, DecidableEq

/-- Outcome of the daemon leaving the Running state: the registry
afterwards, whether the process exits with status zero, and whether it
proactively closed the tunnel's stop channel. -/
structure DaemonOutcome where
  registry : List ConnectionInfo
  exitZero : Bool
  closedStopChan : Bool
deriving Repr, DecidableEq

/-- The Running-state select of `runPortForwardDaemon` from
cmd/portforward_daemon.go: on a tunnel I/O error, mark the entry
"stopped" (best-effort: a failed update is ignored) and return the
error (non-zero exit); on a signal, close the stop channel, remove the
entry entirely, and return nil (zero exit). -/
def daemonRunningStep (reg : List ConnectionInfo)
    (serviceName namespaceName : String) : DaemonEvent → DaemonOutcome
  | .ioError =>
    { registry := (updateConnectionStatus reg serviceName namespaceName "stopped").getD reg,
      exitZero := false, closedStopChan := false }
  | .termSignal =>
    { registry := removeConnection reg serviceName namespaceName,
      exitZero := true, closedStopChan := true }

/-- The flags of `bugx daemon portforward` as supplied on the command
line (`none` = flag absent), from `NewDaemonPortForwardCmd` in
cmd/daemon.go. -/
structure DaemonFlags where
  kubeconfig : Option String
  namespaceFlag : Option String
  service : Option String
  pod : Option String
  localPort : Option String
  remotePort : Option String
deriving Repr, DecidableEq

/-- Cobra flag resolution for the daemon subcommand: every flag except
`--namespace` defaults to the empty string; `--namespace` defaults to
"default". -/
def DaemonFlags.resolve (f : DaemonFlags) :
    String × String × String × String × String × String :=
  (f.kubeconfig.getD "", f.namespaceFlag.getD "default", f.service.getD "",
   f.pod.getD "", f.localPort.getD "", f.remotePort.getD "")

/-- The mandatory-flag guard at the top of the daemon entry point's RunE
(cmd/daemon.go): it rejects an empty kubeconfig, service, pod, localport
or remoteport; `true` means the guard passes (no fatal argument
error).  The namespace flag is not consulted. -/
def daemonArgsOk (f : DaemonFlags) : Bool :=
  let (kubeconfig, _, service, pod, localPort, remotePort) := f.resolve
  !(kubeconfig == "" || service == "" || pod == "" || localPort == "" ||
    remotePort == "")

end Bugx


namespace Bugx

/-- A JSON value, the codomain of `encoding/json` as used by
`saveConnections`/`loadConnections` in cmd/connection.go (only the
shapes the registry file can contain are needed). -/
inductive JsonValue where
  | jnum (n : Int)
  | jstr (s : String)
  | jarr (xs : List JsonValue)
  | jobj (fields : List (String × JsonValue))

/-- Look a key up in a JSON object's field list (first occurrence, as
`encoding/json` keys are unique here). -/
def jsonLookup (fields : List (String × JsonValue)) (key : String) :
    Option JsonValue :=
  (fields.find? (fun p => p.1 == key)).map (fun p => p.2)

/-- Decode a JSON value as a number. -/
def asNum : Option JsonValue → Option Int
  | some (.jnum n) => some n
  | _ => none

/-- Decode a JSON value as a string. -/
def asStr : Option JsonValue → Option String
  | some (.jstr s) => some s
  | _ => none

/-- `json.MarshalIndent` of one `ConnectionInfo`, following the Go
struct tags in cmd/connection.go. -/
def marshalConnection (c : ConnectionInfo) : JsonValue :=
  .jobj [("pid", .jnum c.pid), ("service_name", .jstr c.serviceName),
         ("namespace", .jstr c.namespaceName), ("local_port", .jstr c.localPort),
         ("remote_port", .jnum c.remotePort), ("pod_name", .jstr c.podName),
         ("kubeconfig", .jstr c.kubeconfig), ("status", .jstr c.status)]

/-- `json.Unmarshal` of one `ConnectionInfo` object. -/
def unmarshalConnection : JsonValue → Option ConnectionInfo
  | .jobj fs =>
    match asNum (jsonLookup fs "pid"), asStr (jsonLookup fs "service_name"),
          asStr (jsonLookup fs "namespace"), asStr (jsonLookup fs "local_port"),
          asNum (jsonLookup fs "remote_port"), asStr (jsonLookup fs "pod_name"),
          asStr (jsonLookup fs "kubeconfig"), asStr (jsonLookup fs "status") with
    | some pid, some serviceName, some namespaceName, some localPort,
      some remotePort, some podName, some kubeconfig, some status =>
      some { pid := pid, serviceName := serviceName,
             namespaceName := namespaceName, localPort := localPort,
             remotePort := remotePort, podName := podName,
             kubeconfig := kubeconfig, status := status }
    | _, _, _, _, _, _, _, _ => none
  | _ => none

/-- Element-wise decode of a JSON array of records, as `json.Unmarshal`
into `[]ConnectionInfo` does. -/
def unmarshalConnections : List JsonValue → Option (List ConnectionInfo)
  | [] => some []
  | v :: rest =>
    match unmarshalConnection v, unmarshalConnections rest with
    | some c, some cs => some (c :: cs)
    | _, _ => none

/-- `saveConnections` from cmd/connection.go: marshal the full list and
write it to the registry file. -/
def saveConnections (reg : List ConnectionInfo) : JsonValue :=
  .jarr (reg.map marshalConnection)

/-- `loadConnections` from cmd/connection.go: a missing file (`none`)
loads as the empty list; otherwise the file's JSON array is decoded
record by record, and a malformed file is a parse error. -/
def loadConnections : Option JsonValue → Option (List ConnectionInfo)
  | none => some []
  | some (.jarr xs) => unmarshalConnections xs
  | some _ => none

end Bugx

namespace Bugx

/-- One supervisor-facing operation on the registry, with its
environment: a background `connect` (guard + spawn + record) or a
`disconnect`. -/
inductive Op where
  | connect (env : ConnectEnv)
      (serviceName namespaceName podName localPort : String) (remotePort : Int)
      (kubeconfigPath : String)
  | disconnect (env : DisconnectEnv) (serviceName namespaceName : String)

/-- Effect of one operation on the registry file. -/
def runOp (reg : List ConnectionInfo) : Op → List ConnectionInfo
  | .connect env serviceName namespaceName podName localPort remotePort kc =>
    (connectStep env reg serviceName namespaceName podName localPort remotePort
      kc).registry
  | .disconnect env serviceName namespaceName =>
    (disconnectStep env reg serviceName namespaceName).registry

/-- The registry after running a sequence of operations from the empty
registry (first run: `loadConnections` of a missing file). -/
def runOps (ops : List Op) : List ConnectionInfo :=
  ops.foldl runOp []

/-- Two records carry the same (service name, namespace) key. -/
def sameKey (a b : ConnectionInfo) : Prop :=
  a.serviceName = b.serviceName ∧ a.namespaceName = b.namespaceName

/-- The registry invariant maintained by connect/disconnect sequences:
keys are pairwise distinct and every record is "active". -/
def RegistryInv (reg : List ConnectionInfo) : Prop :=
  reg.Pairwise (fun a b => ¬ sameKey a b) ∧ ∀ c ∈ reg, c.status = "active"

/-- The property claimed of the registry: no two records with status
"active" share a (name, scope) key. -/
def NoDupActive (reg : List ConnectionInfo) : Prop :=
  reg.Pairwise (fun a b => a.status = "active" → b.status = "active" → ¬ sameKey a b)

end Bugx

namespace Bugx

/- Helper lemmas about the registry primitives. -/

theorem unmarshal_marshal (c : ConnectionInfo) :
    unmarshalConnection (marshalConnection c) = some c := rfl

theorem unmarshalConnections_map (reg : List ConnectionInfo) :
    unmarshalConnections (reg.map marshalConnection) = some reg := by
  induction reg with
  | nil => rfl
  | cons c rest ih =>
    simp only [List.map_cons, unmarshalConnections, unmarshal_marshal, ih]

theorem keyMatches_eq_true (c : ConnectionInfo) (n s : String) :
    keyMatches c n s = true ↔ c.serviceName = n ∧ c.namespaceName = s := by
  simp [keyMatches]

theorem findConnection_removeConnection (reg : List ConnectionInfo) (n s : String) :
    findConnection (removeConnection reg n s) n s = none := by
  rw [findConnection, List.find?_eq_none]
  intro c hc
  rw [removeConnection, List.mem_filter] at hc
  simp only [Bool.not_eq_true'] at hc
  simp [hc.2]

theorem updateConnectionStatus_found (reg : List ConnectionInfo) (n s st : String)
    (c : ConnectionInfo) (hfind : findConnection reg n s = some c) :
    ∃ reg2, updateConnectionStatus reg n s st = some reg2 ∧
      findConnection reg2 n s = some { c with status := st } := by
  induction reg with
  | nil => simp [findConnection] at hfind
  | cons d rest ih =>
    cases hd : keyMatches d n s with
    | true =>
      have hdc : d = c := by
        simpa [findConnection, List.find?, hd] using hfind
      subst hdc
      refine ⟨{ d with status := st } :: rest, ?_, ?_⟩
      · simp [updateConnectionStatus, hd]
      · have hkey : keyMatches { d with status := st } n s = true := by
          simpa [keyMatches] using hd
        simp [findConnection, List.find?, hkey]
    | false =>
      have hfind2 : findConnection rest n s = some c := by
        simpa [findConnection, List.find?, hd] using hfind
      obtain ⟨reg2, hupd, hfind3⟩ := ih hfind2
      refine ⟨d :: reg2, ?_, ?_⟩
      · simp [updateConnectionStatus, hd, hupd]
      · simpa [findConnection, List.find?, hd] using hfind3

end Bugx

namespace Bugx

theorem createBackground_result_cases (env : ConnectEnv) (reg : List ConnectionInfo)
    (ns svc pod lp : String) (rp : Int) (kc : String) :
    (createBackgroundPortForward env reg ns svc pod lp rp kc).result ≠
      some ConnectError.alreadyConnected := by
  unfold createBackgroundPortForward
  cases hs : env.spawnOk <;> cases ha : env.alive env.childPid <;>
    cases hk : env.saveOk <;> simp [isProcessRunning, hs, ha, hk]

theorem createBackground_registry_cases (env : ConnectEnv) (reg : List ConnectionInfo)
    (ns svc pod lp : String) (rp : Int) (kc : String) :
    (createBackgroundPortForward env reg ns svc pod lp rp kc).registry = reg ∨
    (createBackgroundPortForward env reg ns svc pod lp rp kc).registry =
      addConnection reg
        { pid := env.childPid, serviceName := svc, namespaceName := ns,
          localPort := lp, remotePort := rp, podName := pod, kubeconfig := kc,
          status := "active" } := by
  unfold createBackgroundPortForward
  cases hs : env.spawnOk <;> cases ha : env.alive env.childPid <;>
    cases hk : env.saveOk <;> simp [isProcessRunning, hs, ha, hk]

theorem RegistryInv_addConnection (reg : List ConnectionInfo)
    (conn : ConnectionInfo) (h : RegistryInv reg)
    (hact : conn.status = "active")
    (hfresh : findConnection reg conn.serviceName conn.namespaceName = none) :
    RegistryInv (addConnection reg conn) := by
  rw [findConnection, List.find?_eq_none] at hfresh
  constructor
  · rw [addConnection, List.pairwise_append]
    refine ⟨h.1, List.pairwise_singleton _ _, ?_⟩
    intro a ha b hb
    rw [List.mem_singleton] at hb
    subst hb
    intro hkey
    exact hfresh a ha (by simp [keyMatches, hkey.1, hkey.2])
  · intro c hc
    rw [addConnection, List.mem_append, List.mem_singleton] at hc
    cases hc with
    | inl hc => exact h.2 c hc
    | inr hc => rw [hc]; exact hact

theorem RegistryInv_connectStep (env : ConnectEnv) (reg : List ConnectionInfo)
    (svc ns pod lp : String) (rp : Int) (kc : String) (h : RegistryInv reg) :
    RegistryInv (connectStep env reg svc ns pod lp rp kc).registry := by
  unfold connectStep
  cases hf : findConnection reg svc ns with
  | some existing =>
    have hmem : existing ∈ reg := List.mem_of_find?_eq_some hf
    have hact : existing.status = "active" := h.2 existing hmem
    simp [hact]
    exact h
  | none =>
    cases createBackground_registry_cases env reg ns svc pod lp rp kc with
    | inl heq => rw [heq]; exact h
    | inr heq =>
      rw [heq]
      exact RegistryInv_addConnection reg _ h rfl hf

theorem RegistryInv_of_sublist (reg reg2 : List ConnectionInfo)
    (hsub : reg2.Sublist reg) (h : RegistryInv reg) : RegistryInv reg2 :=
  ⟨h.1.sublist hsub, fun c hc => h.2 c (hsub.mem hc)⟩

theorem RegistryInv_removeConnection (reg : List ConnectionInfo) (n s : String)
    (h : RegistryInv reg) : RegistryInv (removeConnection reg n s) :=
  RegistryInv_of_sublist reg _ (List.filter_sublist reg) h

theorem RegistryInv_disconnectStep (env : DisconnectEnv)
    (reg : List ConnectionInfo) (n s : String) (h : RegistryInv reg) :
    RegistryInv (disconnectStep env reg n s).registry := by
  unfold disconnectStep
  cases hf : findConnection reg n s with
  | none => exact h
  | some conn =>
    cases ha : isProcessRunning env.alive conn.pid <;>
      cases ht : env.termCallFails <;> cases hk : env.killCallFails <;>
        simp [ha, ht, hk] <;>
          first
          | exact h
          | exact RegistryInv_removeConnection reg n s h

theorem RegistryInv_runOp (reg : List ConnectionInfo) (op : Op)
    (h : RegistryInv reg) : RegistryInv (runOp reg op) := by
  cases op with
  | connect env svc ns pod lp rp kc => exact RegistryInv_connectStep env reg svc ns pod lp rp kc h
  | disconnect env n s => exact RegistryInv_disconnectStep env reg n s h

theorem RegistryInv_foldl (ops : List Op) :
    ∀ reg, RegistryInv reg → RegistryInv (ops.foldl runOp reg) := by
  induction ops with
  | nil => intro reg h; exact h
  | cons op rest ih => intro reg h; exact ih (runOp reg op) (RegistryInv_runOp reg op h)

theorem RegistryInv_runOps (ops : List Op) : RegistryInv (runOps ops) :=
  RegistryInv_foldl ops [] ⟨List.Pairwise.nil, by simp⟩

end Bugx

namespace Bugx

/-- C4: when the spawn call succeeds but the child process is no longer
alive at the bounded confirmation re-check, connect returns the
daemon-start failure and leaves the registry untouched — no record is
written. -/
theorem connect_child_died_no_record (env : ConnectEnv)
    (reg : List ConnectionInfo) (ns svc pod lp : String) (rp : Int) (kc : String)
    (hspawn : env.spawnOk = true) (hdead : env.alive env.childPid = false) :
    createBackgroundPortForward env reg ns svc pod lp rp kc =
      { registry := reg, result := some ConnectError.daemonStartFailed,
        spawned := true, killedChild := false } := by
  simp [createBackgroundPortForward, hspawn, isProcessRunning, hdead]

/-- Witness for C4 at a concrete environment and registry. -/
theorem connect_child_died_no_record_witness :
    createBackgroundPortForward
      { spawnOk := true, childPid := 99, alive := fun _ => false, saveOk := true }
      [] "prod" "db" "db-0" "3307" 3306 "/tmp/kc" =
      { registry := [], result := some ConnectError.daemonStartFailed,
        spawned := true, killedChild := false } :=
  connect_child_died_no_record
    { spawnOk := true, childPid := 99, alive := fun _ => false, saveOk := true }
    [] "prod" "db" "db-0" "3307" 3306 "/tmp/kc" rfl rfl

/-- C5: when the child passes the liveness re-check but the registry
write fails, the supervisor attempts to kill the spawned child and
returns the registry-write error. -/
theorem connect_write_failed_kills_child (env : ConnectEnv)
    (reg : List ConnectionInfo) (ns svc pod lp : String) (rp : Int) (kc : String)
    (hspawn : env.spawnOk = true) (halive : env.alive env.childPid = true)
    (hsave : env.saveOk = false) :
    createBackgroundPortForward env reg ns svc pod lp rp kc =
      { registry := reg, result := some ConnectError.registryWriteFailed,
        spawned := true, killedChild := true } := by
  simp [createBackgroundPortForward, hspawn, isProcessRunning, halive, hsave]

/-- Witness for C5 at a concrete environment and registry. -/
theorem connect_write_failed_kills_child_witness :
    createBackgroundPortForward
      { spawnOk := true, childPid := 99, alive := fun _ => true, saveOk := false }
      [] "prod" "db" "db-0" "3307" 3306 "/tmp/kc" =
      { registry := [], result := some ConnectError.registryWriteFailed,
        spawned := true, killedChild := true } :=
  connect_write_failed_kills_child
    { spawnOk := true, childPid := 99, alive := fun _ => true, saveOk := false }
    [] "prod" "db" "db-0" "3307" 3306 "/tmp/kc" rfl rfl rfl

/-- C6: when disconnect finds a matching record whose recorded PID is
not alive, it removes the entry, reports the "already stopped" success
(never an error), and sends no signal at all. -/
theorem disconnect_dead_pid_removes_and_succeeds (env : DisconnectEnv)
    (reg : List ConnectionInfo) (n s : String) (c : ConnectionInfo)
    (hfind : findConnection reg n s = some c)
    (hdead : env.alive c.pid = false) :
    disconnectStep env reg n s =
      { registry := removeConnection reg n s,
        result := DisconnectResult.alreadyStopped,
        sentTerm := false, sentKill := false } ∧
    findConnection (disconnectStep env reg n s).registry n s = none ∧
    (disconnectStep env reg n s).result.isError = false := by
  have hstep : disconnectStep env reg n s =
      { registry := removeConnection reg n s,
        result := DisconnectResult.alreadyStopped,
        sentTerm := false, sentKill := false } := by
    simp [disconnectStep, hfind, isProcessRunning, hdead]
  refine ⟨hstep, ?_, ?_⟩
  · rw [hstep]
    exact findConnection_removeConnection reg n s
  · rw [hstep]
    rfl

/-- Witness for C6 at a concrete registry holding one dead-PID record. -/
theorem disconnect_dead_pid_removes_and_succeeds_witness :
    disconnectStep
      { alive := fun _ => false, termCallFails := false, killCallFails := false }
      [{ pid := 77, serviceName := "db", namespaceName := "prod",
         localPort := "3307", remotePort := 3306, podName := "db-0",
         kubeconfig := "/tmp/kc", status := "active" }] "db" "prod" =
      { registry := removeConnection
          [{ pid := 77, serviceName := "db", namespaceName := "prod",
             localPort := "3307", remotePort := 3306, podName := "db-0",
             kubeconfig := "/tmp/kc", status := "active" }] "db" "prod",
        result := DisconnectResult.alreadyStopped,
        sentTerm := false, sentKill := false } ∧
    findConnection
      (disconnectStep
        { alive := fun _ => false, termCallFails := false, killCallFails := false }
        [{ pid := 77, serviceName := "db", namespaceName := "prod",
           localPort := "3307", remotePort := 3306, podName := "db-0",
           kubeconfig := "/tmp/kc", status := "active" }] "db" "prod").registry
      "db" "prod" = none ∧
    (disconnectStep
      { alive := fun _ => false, termCallFails := false, killCallFails := false }
      [{ pid := 77, serviceName := "db", namespaceName := "prod",
         localPort := "3307", remotePort := 3306, podName := "db-0",
         kubeconfig := "/tmp/kc", status := "active" }] "db" "prod").result.isError
      = false :=
  disconnect_dead_pid_removes_and_succeeds
    { alive := fun _ => false, termCallFails := false, killCallFails := false }
    [{ pid := 77, serviceName := "db", namespaceName := "prod",
       localPort := "3307", remotePort := 3306, podName := "db-0",
       kubeconfig := "/tmp/kc", status := "active" }] "db" "prod"
    { pid := 77, serviceName := "db", namespaceName := "prod",
      localPort := "3307", remotePort := 3306, podName := "db-0",
      kubeconfig := "/tmp/kc", status := "active" } (by decide) rfl

/-- C7: on a live worker, disconnect always sends the graceful SIGTERM,
and sends the forceful SIGKILL exactly when the SIGTERM call itself
returned an error; a worker that merely ignores the delivered SIGTERM
(call succeeded) is never sent SIGKILL. -/
theorem disconnect_live_escalation (env : DisconnectEnv)
    (reg : List ConnectionInfo) (n s : String) (c : ConnectionInfo)
    (hfind : findConnection reg n s = some c)
    (halive : env.alive c.pid = true) :
    (disconnectStep env reg n s).sentTerm = true ∧
    ((disconnectStep env reg n s).sentKill = true ↔ env.termCallFails = true) := by
  cases ht : env.termCallFails <;> cases hk : env.killCallFails <;>
    simp [disconnectStep, hfind, isProcessRunning, halive, ht, hk]

/-- Witness for C7: live worker, SIGTERM call succeeds, no SIGKILL. -/
theorem disconnect_live_escalation_witness :
    (disconnectStep
      { alive := fun _ => true, termCallFails := false, killCallFails := false }
      [{ pid := 77, serviceName := "db", namespaceName := "prod",
         localPort := "3307", remotePort := 3306, podName := "db-0",
         kubeconfig := "/tmp/kc", status := "active" }] "db" "prod").sentTerm
      = true ∧
    ((disconnectStep
      { alive := fun _ => true, termCallFails := false, killCallFails := false }
      [{ pid := 77, serviceName := "db", namespaceName := "prod",
         localPort := "3307", remotePort := 3306, podName := "db-0",
         kubeconfig := "/tmp/kc", status := "active" }] "db" "prod").sentKill
      = true ↔
      ({ alive := fun _ => true, termCallFails := false,
         killCallFails := false } : DisconnectEnv).termCallFails = true) :=
  disconnect_live_escalation
    { alive := fun _ => true, termCallFails := false, killCallFails := false }
    [{ pid := 77, serviceName := "db", namespaceName := "prod",
       localPort := "3307", remotePort := 3306, podName := "db-0",
       kubeconfig := "/tmp/kc", status := "active" }] "db" "prod"
    { pid := 77, serviceName := "db", namespaceName := "prod",
      localPort := "3307", remotePort := 3306, podName := "db-0",
      kubeconfig := "/tmp/kc", status := "active" } (by decide) rfl

end Bugx

namespace Bugx

/-- C8: saving any sequence of records to the registry file and loading
it back yields exactly the same records, field for field, in the same
order (hence the same count). -/
theorem save_load_roundtrip (reg : List ConnectionInfo) :
    loadConnections (some (saveConnections reg)) = some reg := by
  simp [loadConnections, saveConnections, unmarshalConnections_map]

/-- C9: once Running, the daemon reacts to a termination signal by
closing the tunnel's stop channel, removing its registry entry entirely
(no record for the key survives, stopped or otherwise) and exiting with
status zero; a tunnel I/O error instead leaves the entry present but
marked "stopped" and exits with non-zero status. -/
theorem daemon_signal_vs_error (reg : List ConnectionInfo) (n s : String)
    (c : ConnectionInfo) (hfind : findConnection reg n s = some c) :
    (daemonRunningStep reg n s DaemonEvent.termSignal).closedStopChan = true ∧
    (daemonRunningStep reg n s DaemonEvent.termSignal).exitZero = true ∧
    (daemonRunningStep reg n s DaemonEvent.termSignal).registry =
      removeConnection reg n s ∧
    findConnection (daemonRunningStep reg n s DaemonEvent.termSignal).registry
      n s = none ∧
    (daemonRunningStep reg n s DaemonEvent.ioError).exitZero = false ∧
    findConnection (daemonRunningStep reg n s DaemonEvent.ioError).registry
      n s = some { c with status := "stopped" } := by
  obtain ⟨reg2, hupd, hfind2⟩ :=
    updateConnectionStatus_found reg n s "stopped" c hfind
  refine ⟨rfl, rfl, rfl, findConnection_removeConnection reg n s, rfl, ?_⟩
  simp only [daemonRunningStep, hupd, Option.getD_some]
  exact hfind2

/-- Witness for C9 at a one-record registry. -/
theorem daemon_signal_vs_error_witness :
    (daemonRunningStep
      [{ pid := 77, serviceName := "db", namespaceName := "prod",
         localPort := "3307", remotePort := 3306, podName := "db-0",
         kubeconfig := "/tmp/kc", status := "active" }] "db" "prod"
      DaemonEvent.termSignal).closedStopChan = true ∧
    (daemonRunningStep
      [{ pid := 77, serviceName := "db", namespaceName := "prod",
         localPort := "3307", remotePort := 3306, podName := "db-0",
         kubeconfig := "/tmp/kc", status := "active" }] "db" "prod"
      DaemonEvent.termSignal).exitZero = true ∧
    (daemonRunningStep
      [{ pid := 77, serviceName := "db", namespaceName := "prod",
         localPort := "3307", remotePort := 3306, podName := "db-0",
         kubeconfig := "/tmp/kc", status := "active" }] "db" "prod"
      DaemonEvent.termSignal).registry =
      removeConnection
        [{ pid := 77, serviceName := "db", namespaceName := "prod",
           localPort := "3307", remotePort := 3306, podName := "db-0",
           kubeconfig := "/tmp/kc", status := "active" }] "db" "prod" ∧
    findConnection
      (daemonRunningStep
        [{ pid := 77, serviceName := "db", namespaceName := "prod",
           localPort := "3307", remotePort := 3306, podName := "db-0",
           kubeconfig := "/tmp/kc", status := "active" }] "db" "prod"
        DaemonEvent.termSignal).registry "db" "prod" = none ∧
    (daemonRunningStep
      [{ pid := 77, serviceName := "db", namespaceName := "prod",
         localPort := "3307", remotePort := 3306, podName := "db-0",
         kubeconfig := "/tmp/kc", status := "active" }] "db" "prod"
      DaemonEvent.ioError).exitZero = false ∧
    findConnection
      (daemonRunningStep
        [{ pid := 77, serviceName := "db", namespaceName := "prod",
           localPort := "3307", remotePort := 3306, podName := "db-0",
           kubeconfig := "/tmp/kc", status := "active" }] "db" "prod"
        DaemonEvent.ioError).registry "db" "prod" =
      some { pid := 77, serviceName := "db", namespaceName := "prod",
             localPort := "3307", remotePort := 3306, podName := "db-0",
             kubeconfig := "/tmp/kc", status := "stopped" } :=
  daemon_signal_vs_error
    [{ pid := 77, serviceName := "db", namespaceName := "prod",
       localPort := "3307", remotePort := 3306, podName := "db-0",
       kubeconfig := "/tmp/kc", status := "active" }] "db" "prod"
    { pid := 77, serviceName := "db", namespaceName := "prod",
      localPort := "3307", remotePort := 3306, podName := "db-0",
      kubeconfig := "/tmp/kc", status := "active" } (by decide)

/-- C10: the registry remove operation drops every record whose
(service name, namespace) matches — not only the first, and without
looking at status or PID — keeps all non-matching records (a sublist of
the original, and every non-matching record survives), and still
succeeds when nothing matches, leaving the registry identical. -/
theorem removeConnection_complete (reg : List ConnectionInfo) (n s : String) :
    (∀ c ∈ removeConnection reg n s,
      ¬ (c.serviceName = n ∧ c.namespaceName = s)) ∧
    (removeConnection reg n s).Sublist reg ∧
    (∀ c ∈ reg, ¬ (c.serviceName = n ∧ c.namespaceName = s) →
      c ∈ removeConnection reg n s) ∧
    ((∀ c ∈ reg, ¬ (c.serviceName = n ∧ c.namespaceName = s)) →
      removeConnection reg n s = reg) := by
  refine ⟨?_, List.filter_sublist reg, ?_, ?_⟩
  · intro c hc
    rw [removeConnection, List.mem_filter] at hc
    have h2 : keyMatches c n s = false := by simpa using hc.2
    intro h
    rw [← keyMatches_eq_true c n s] at h
    simp [h] at h2
  · intro c hc hne
    rw [removeConnection, List.mem_filter]
    refine ⟨hc, ?_⟩
    cases hk : keyMatches c n s with
    | false => rfl
    | true => exact absurd ((keyMatches_eq_true c n s).1 hk) hne
  · intro hall
    rw [removeConnection, List.filter_eq_self]
    intro c hc
    cases hk : keyMatches c n s with
    | false => rfl
    | true => exact absurd ((keyMatches_eq_true c n s).1 hk) (hall c hc)

/-- Witness for C10 on a registry mixing matching records of both
statuses and a non-matching record. -/
theorem removeConnection_complete_witness :
    (∀ c ∈ removeConnection
        [{ pid := 77, serviceName := "db", namespaceName := "prod",
           localPort := "3307", remotePort := 3306, podName := "db-0",
           kubeconfig := "/tmp/kc", status := "stopped" },
         { pid := 78, serviceName := "cache", namespaceName := "prod",
           localPort := "6380", remotePort := 6379, podName := "cache-0",
           kubeconfig := "/tmp/kc", status := "active" },
         { pid := 79, serviceName := "db", namespaceName := "prod",
           localPort := "3308", remotePort := 3306, podName := "db-1",
           kubeconfig := "/tmp/kc", status := "active" }] "db" "prod",
      ¬ (c.serviceName = "db" ∧ c.namespaceName = "prod")) ∧
    (removeConnection
        [{ pid := 77, serviceName := "db", namespaceName := "prod",
           localPort := "3307", remotePort := 3306, podName := "db-0",
           kubeconfig := "/tmp/kc", status := "stopped" },
         { pid := 78, serviceName := "cache", namespaceName := "prod",
           localPort := "6380", remotePort := 6379, podName := "cache-0",
           kubeconfig := "/tmp/kc", status := "active" },
         { pid := 79, serviceName := "db", namespaceName := "prod",
           localPort := "3308", remotePort := 3306, podName := "db-1",
           kubeconfig := "/tmp/kc", status := "active" }] "db" "prod").Sublist
      [{ pid := 77, serviceName := "db", namespaceName := "prod",
         localPort := "3307", remotePort := 3306, podName := "db-0",
         kubeconfig := "/tmp/kc", status := "stopped" },
       { pid := 78, serviceName := "cache", namespaceName := "prod",
         localPort := "6380", remotePort := 6379, podName := "cache-0",
         kubeconfig := "/tmp/kc", status := "active" },
       { pid := 79, serviceName := "db", namespaceName := "prod",
         localPort := "3308", remotePort := 3306, podName := "db-1",
         kubeconfig := "/tmp/kc", status := "active" }] ∧
    (∀ c ∈ ([{ pid := 77, serviceName := "db", namespaceName := "prod",
               localPort := "3307", remotePort := 3306, podName := "db-0",
               kubeconfig := "/tmp/kc", status := "stopped" },
             { pid := 78, serviceName := "cache", namespaceName := "prod",
               localPort := "6380", remotePort := 6379, podName := "cache-0",
               kubeconfig := "/tmp/kc", status := "active" },
             { pid := 79, serviceName := "db", namespaceName := "prod",
               localPort := "3308", remotePort := 3306, podName := "db-1",
               kubeconfig := "/tmp/kc", status := "active" }] :
               List ConnectionInfo),
      ¬ (c.serviceName = "db" ∧ c.namespaceName = "prod") →
        c ∈ removeConnection
          [{ pid := 77, serviceName := "db", namespaceName := "prod",
             localPort := "3307", remotePort := 3306, podName := "db-0",
             kubeconfig := "/tmp/kc", status := "stopped" },
           { pid := 78, serviceName := "cache", namespaceName := "prod",
             localPort := "6380", remotePort := 6379, podName := "cache-0",
             kubeconfig := "/tmp/kc", status := "active" },
           { pid := 79, serviceName := "db", namespaceName := "prod",
             localPort := "3308", remotePort := 3306, podName := "db-1",
             kubeconfig := "/tmp/kc", status := "active" }] "db" "prod") ∧
    ((∀ c ∈ ([{ pid := 77, serviceName := "db", namespaceName := "prod",
                localPort := "3307", remotePort := 3306, podName := "db-0",
                kubeconfig := "/tmp/kc", status := "stopped" },
              { pid := 78, serviceName := "cache", namespaceName := "prod",
                localPort := "6380", remotePort := 6379, podName := "cache-0",
                kubeconfig := "/tmp/kc", status := "active" },
              { pid := 79, serviceName := "db", namespaceName := "prod",
                localPort := "3308", remotePort := 3306, podName := "db-1",
                kubeconfig := "/tmp/kc", status := "active" }] :
                List ConnectionInfo),
       ¬ (c.serviceName = "db" ∧ c.namespaceName = "prod")) →
      removeConnection
        [{ pid := 77, serviceName := "db", namespaceName := "prod",
           localPort := "3307", remotePort := 3306, podName := "db-0",
           kubeconfig := "/tmp/kc", status := "stopped" },
         { pid := 78, serviceName := "cache", namespaceName := "prod",
           localPort := "6380", remotePort := 6379, podName := "cache-0",
           kubeconfig := "/tmp/kc", status := "active" },
         { pid := 79, serviceName := "db", namespaceName := "prod",
           localPort := "3308", remotePort := 3306, podName := "db-1",
           kubeconfig := "/tmp/kc", status := "active" }] "db" "prod" =
        [{ pid := 77, serviceName := "db", namespaceName := "prod",
           localPort := "3307", remotePort := 3306, podName := "db-0",
           kubeconfig := "/tmp/kc", status := "stopped" },
         { pid := 78, serviceName := "cache", namespaceName := "prod",
           localPort := "6380", remotePort := 6379, podName := "cache-0",
           kubeconfig := "/tmp/kc", status := "active" },
         { pid := 79, serviceName := "db", namespaceName := "prod",
           localPort := "3308", remotePort := 3306, podName := "db-1",
           kubeconfig := "/tmp/kc", status := "active" }]) :=
  removeConnection_complete
    [{ pid := 77, serviceName := "db", namespaceName := "prod",
       localPort := "3307", remotePort := 3306, podName := "db-0",
       kubeconfig := "/tmp/kc", status := "stopped" },
     { pid := 78, serviceName := "cache", namespaceName := "prod",
       localPort := "6380", remotePort := 6379, podName := "cache-0",
       kubeconfig := "/tmp/kc", status := "active" },
     { pid := 79, serviceName := "db", namespaceName := "prod",
       localPort := "3308", remotePort := 3306, podName := "db-1",
       kubeconfig := "/tmp/kc", status := "active" }] "db" "prod"

end Bugx

namespace Bugx

/-- C2 counterexample: invoking the daemon entry point with no
namespace flag at all (every other flag supplied) passes the
mandatory-flag guard — the scope resolves to "default" and no fatal
argument error is raised, so the scope is not one of the mandatory
parameters. -/
theorem daemon_missing_namespace_accepted :
    daemonArgsOk
      { kubeconfig := some "/tmp/kc", namespaceFlag := none,
        service := some "db", pod := some "db-0",
        localPort := some "3307", remotePort := some "3306" } = true ∧
    ({ kubeconfig := some "/tmp/kc", namespaceFlag := none,
       service := some "db", pod := some "db-0",
       localPort := some "3307", remotePort := some "3306" } :
       DaemonFlags).resolve.2.1 = "default" := by
  exact ⟨rfl, rfl⟩

/-- C2 amended: the daemon entry point's guard rejects the invocation
with a fatal argument error exactly when one of kubeconfig, service
name, target id (pod), local port or remote port resolves to the empty
string; the scope (namespace) flag defaults to "default" and is never
checked, so a missing scope is not an argument error. -/
theorem daemonArgsOk_iff (f : DaemonFlags) :
    daemonArgsOk f = true ↔
      (f.kubeconfig.getD "" ≠ "" ∧ f.service.getD "" ≠ "" ∧
       f.pod.getD "" ≠ "" ∧ f.localPort.getD "" ≠ "" ∧
       f.remotePort.getD "" ≠ "") := by
  simp [daemonArgsOk, DaemonFlags.resolve, not_or, and_assoc]

/-- Witness for C2's amended guard characterisation at full flags. -/
theorem daemonArgsOk_iff_witness :
    daemonArgsOk
      { kubeconfig := some "/tmp/kc", namespaceFlag := some "prod",
        service := some "db", pod := some "db-0",
        localPort := some "3307", remotePort := some "3306" } = true ↔
      (({ kubeconfig := some "/tmp/kc", namespaceFlag := some "prod",
          service := some "db", pod := some "db-0",
          localPort := some "3307", remotePort := some "3306" } :
          DaemonFlags).kubeconfig.getD "" ≠ "" ∧
       ({ kubeconfig := some "/tmp/kc", namespaceFlag := some "prod",
          service := some "db", pod := some "db-0",
          localPort := some "3307", remotePort := some "3306" } :
          DaemonFlags).service.getD "" ≠ "" ∧
       ({ kubeconfig := some "/tmp/kc", namespaceFlag := some "prod",
          service := some "db", pod := some "db-0",
          localPort := some "3307", remotePort := some "3306" } :
          DaemonFlags).pod.getD "" ≠ "" ∧
       ({ kubeconfig := some "/tmp/kc", namespaceFlag := some "prod",
          service := some "db", pod := some "db-0",
          localPort := some "3307", remotePort := some "3306" } :
          DaemonFlags).localPort.getD "" ≠ "" ∧
       ({ kubeconfig := some "/tmp/kc", namespaceFlag := some "prod",
          service := some "db", pod := some "db-0",
          localPort := some "3307", remotePort := some "3306" } :
          DaemonFlags).remotePort.getD "" ≠ "") :=
  daemonArgsOk_iff
    { kubeconfig := some "/tmp/kc", namespaceFlag := some "prod",
      service := some "db", pod := some "db-0",
      localPort := some "3307", remotePort := some "3306" }

/-- C1 counterexample: with a single registry record of status "active"
whose PID 77 is dead (the whole process table is dead), connect still
fails with AlreadyConnected — the supervisor consults only the stored
status, so a stale active record with a dead PID does cause the
failure, contrary to the claim. -/
theorem connect_alreadyConnected_despite_dead_pid :
    (connectStep
      { spawnOk := true, childPid := 99, alive := fun _ => false,
        saveOk := true }
      [{ pid := 77, serviceName := "db", namespaceName := "prod",
         localPort := "3307", remotePort := 3306, podName := "db-0",
         kubeconfig := "/tmp/kc", status := "active" }]
      "db" "prod" "db-0" "3307" 3306 "/tmp/kc").result =
      some ConnectError.alreadyConnected ∧
    ((fun _ => false : Int → Bool) 77 = false) := by
  exact ⟨rfl, rfl⟩

theorem connectStep_of_active (env : ConnectEnv) (reg : List ConnectionInfo)
    (svc ns pod lp : String) (rp : Int) (kc : String)
    (existing : ConnectionInfo)
    (hf : findConnection reg svc ns = some existing)
    (hact : existing.status = "active") :
    connectStep env reg svc ns pod lp rp kc =
      { registry := reg, result := some ConnectError.alreadyConnected,
        spawned := false, killedChild := false } := by
  simp [connectStep, hf, hact]

theorem connectStep_of_not_active (env : ConnectEnv) (reg : List ConnectionInfo)
    (svc ns pod lp : String) (rp : Int) (kc : String)
    (existing : ConnectionInfo)
    (hf : findConnection reg svc ns = some existing)
    (hact : ¬ existing.status = "active") :
    connectStep env reg svc ns pod lp rp kc =
      createBackgroundPortForward env reg ns svc pod lp rp kc := by
  simp [connectStep, hf, hact]

theorem connectStep_of_none (env : ConnectEnv) (reg : List ConnectionInfo)
    (svc ns pod lp : String) (rp : Int) (kc : String)
    (hf : findConnection reg svc ns = none) :
    connectStep env reg svc ns pod lp rp kc =
      createBackgroundPortForward env reg ns svc pod lp rp kc := by
  simp [connectStep, hf]

/-- C1 amended: connect fails with AlreadyConnected — spawning nothing
and leaving the registry unchanged — precisely when the first registry
record matching (name, scope) has status "active", regardless of
whether the recorded PID is alive; liveness of the PID plays no part
in the duplicate check. -/
theorem connect_alreadyConnected_iff (env : ConnectEnv)
    (reg : List ConnectionInfo) (svc ns pod lp : String) (rp : Int)
    (kc : String) :
    ((connectStep env reg svc ns pod lp rp kc).result =
        some ConnectError.alreadyConnected ↔
      ∃ c, findConnection reg svc ns = some c ∧ c.status = "active") ∧
    ((connectStep env reg svc ns pod lp rp kc).result =
        some ConnectError.alreadyConnected →
      (connectStep env reg svc ns pod lp rp kc).spawned = false ∧
      (connectStep env reg svc ns pod lp rp kc).registry = reg) := by
  cases hf : findConnection reg svc ns with
  | some existing =>
    by_cases hact : existing.status = "active"
    · rw [connectStep_of_active env reg svc ns pod lp rp kc existing hf hact]
      exact ⟨⟨fun _ => ⟨existing, rfl, hact⟩, fun _ => rfl⟩, fun _ => ⟨rfl, rfl⟩⟩
    · rw [connectStep_of_not_active env reg svc ns pod lp rp kc existing hf hact]
      constructor
      · constructor
        · intro h
          exact absurd h (createBackground_result_cases env reg ns svc pod lp rp kc)
        · rintro ⟨c, hc, hcact⟩
          cases Option.some.inj hc
          exact absurd hcact hact
      · intro h
        exact absurd h (createBackground_result_cases env reg ns svc pod lp rp kc)
  | none =>
    rw [connectStep_of_none env reg svc ns pod lp rp kc hf]
    constructor
    · constructor
      · intro h
        exact absurd h (createBackground_result_cases env reg ns svc pod lp rp kc)
      · rintro ⟨c, hc, _⟩
        cases hc
    · intro h
      exact absurd h (createBackground_result_cases env reg ns svc pod lp rp kc)

end Bugx

namespace Bugx

/-- Witness for C1's amended characterisation on a one-record registry
with a dead process table. -/
theorem connect_alreadyConnected_iff_witness :
    ((connectStep
        { spawnOk := true, childPid := 99, alive := fun _ => false,
          saveOk := true }
        [{ pid := 77, serviceName := "db", namespaceName := "prod",
           localPort := "3307", remotePort := 3306, podName := "db-0",
           kubeconfig := "/tmp/kc", status := "active" }]
        "db" "prod" "db-0" "3307" 3306 "/tmp/kc").result =
        some ConnectError.alreadyConnected ↔
      ∃ c, findConnection
          [{ pid := 77, serviceName := "db", namespaceName := "prod",
             localPort := "3307", remotePort := 3306, podName := "db-0",
             kubeconfig := "/tmp/kc", status := "active" }] "db" "prod" =
          some c ∧ c.status = "active") ∧
    ((connectStep
        { spawnOk := true, childPid := 99, alive := fun _ => false,
          saveOk := true }
        [{ pid := 77, serviceName := "db", namespaceName := "prod",
           localPort := "3307", remotePort := 3306, podName := "db-0",
           kubeconfig := "/tmp/kc", status := "active" }]
        "db" "prod" "db-0" "3307" 3306 "/tmp/kc").result =
        some ConnectError.alreadyConnected →
      (connectStep
        { spawnOk := true, childPid := 99, alive := fun _ => false,
          saveOk := true }
        [{ pid := 77, serviceName := "db", namespaceName := "prod",
           localPort := "3307", remotePort := 3306, podName := "db-0",
           kubeconfig := "/tmp/kc", status := "active" }]
        "db" "prod" "db-0" "3307" 3306 "/tmp/kc").spawned = false ∧
      (connectStep
        { spawnOk := true, childPid := 99, alive := fun _ => false,
          saveOk := true }
        [{ pid := 77, serviceName := "db", namespaceName := "prod",
           localPort := "3307", remotePort := 3306, podName := "db-0",
           kubeconfig := "/tmp/kc", status := "active" }]
        "db" "prod" "db-0" "3307" 3306 "/tmp/kc").registry =
        [{ pid := 77, serviceName := "db", namespaceName := "prod",
           localPort := "3307", remotePort := 3306, podName := "db-0",
           kubeconfig := "/tmp/kc", status := "active" }]) :=
  connect_alreadyConnected_iff
    { spawnOk := true, childPid := 99, alive := fun _ => false,
      saveOk := true }
    [{ pid := 77, serviceName := "db", namespaceName := "prod",
       localPort := "3307", remotePort := 3306, podName := "db-0",
       kubeconfig := "/tmp/kc", status := "active" }]
    "db" "prod" "db-0" "3307" 3306 "/tmp/kc"

/-- C3: after any sequence of connect and disconnect operations starting
from the empty registry — with arbitrary environments: spawns that fail,
children that die, registry writes that fail, dead PIDs, failing
signal calls — the registry never holds two records with status
"active" and the same (service name, namespace) key. -/
theorem runOps_no_duplicate_active (ops : List Op) : NoDupActive (runOps ops) :=
  ((RegistryInv_runOps ops).1).imp (fun hne _ _ => hne)

/-- Witness for C3 on a concrete operation sequence: two connects to the
same key (the second is refused) followed by a disconnect. -/
theorem runOps_no_duplicate_active_witness :
    NoDupActive (runOps
      [Op.connect
        { spawnOk := true, childPid := 99, alive := fun _ => true,
          saveOk := true } "db" "prod" "db-0" "3307" 3306 "/tmp/kc",
       Op.connect
        { spawnOk := true, childPid := 100, alive := fun _ => true,
          saveOk := true } "db" "prod" "db-0" "3307" 3306 "/tmp/kc",
       Op.disconnect
        { alive := fun _ => true, termCallFails := false,
          killCallFails := false } "db" "prod"]) :=
  runOps_no_duplicate_active
    [Op.connect
      { spawnOk := true, childPid := 99, alive := fun _ => true,
        saveOk := true } "db" "prod" "db-0" "3307" 3306 "/tmp/kc",
     Op.connect
      { spawnOk := true, childPid := 100, alive := fun _ => true,
        saveOk := true } "db" "prod" "db-0" "3307" 3306 "/tmp/kc",
     Op.disconnect
      { alive := fun _ => true, termCallFails := false,
        killCallFails := false } "db" "prod"]

end Bugx
